import Mathlib

/-!
Shallow embedding of `src/server.py` (arxiv-mcp-server).

The program is a small MCP server exposing three tools over arXiv.org:
`get_article_url`, `download_article` and `load_article_to_context`.
External effects are modelled as explicit parameters:

* outbound HTTP is a function from the request (url, query parameters) to an
  `HttpResult` / `PdfResult`, which is either a received response (status code
  plus body) or a raised transport exception (network error or timeout);
* `feedparser.parse` is a function `String → Feed`, where a `Feed` carries its
  list of entries, each entry carrying its `id` string (feedparser itself never
  raises, it returns a possibly-empty entry list);
* the filesystem is a map from paths to file contents together with a
  writability oracle used for the `try: open/write` block;
* `fitz.open` + page iteration is a function from the fetched bytes to the
  list of page texts, `none` meaning the open raises.

Machine-level bytes are modelled as `List Nat`; they are never inspected.
Python functions that can propagate an uncaught exception return `PyResult`.
-/

namespace ArxivServer

def USER_AGENT : String := "arxiv-app/1.0"

def ARXIV_API_BASE : String := "http://export.arxiv.org/api"

/-- A transport-level exception raised by `httpx` before any response exists. -/
inductive TransportError where
  | networkError
  | timeout
deriving DecidableEq

/-- A received HTTP response for a text request: status code and body text. -/
structure HttpResponse where
  status : Nat
  bodyText : String
deriving DecidableEq

/-- Outcome of `client.get` for the search call: a response, or a raised
transport exception. -/
inductive HttpResult where
  | response (r : HttpResponse)
  | failure (e : TransportError)
deriving DecidableEq

/-- A transport attempt that did not yield a 2xx response: either an exception
was raised, or `raise_for_status` raises on the non-success status. -/
def HttpResult.isFailure : HttpResult → Bool
  | .failure _ => true
  | .response r => !(200 ≤ r.status && r.status < 300)

/-- Embedding of `make_api_call` (server.py lines 14-26): returns the response text on a
2xx response, and `None` on any exception — raised by the transport or by
`raise_for_status` on a non-2xx status. -/
def make_api_call (result : HttpResult) : Option String :=
  match result with
  | .failure _ => none
  | .response r => if 200 ≤ r.status ∧ r.status < 300 then some r.bodyText else none

/-- A received HTTP response for the PDF request: status code and body bytes. -/
structure PdfResponse where
  status : Nat
  content : List Nat
deriving DecidableEq

/-- Outcome of `client.get` for the PDF call. -/
inductive PdfResult where
  | response (r : PdfResponse)
  | failure (e : TransportError)
deriving DecidableEq

def PdfResult.isFailure : PdfResult → Bool
  | .failure _ => true
  | .response r => !(200 ≤ r.status && r.status < 300)

/-- Embedding of `get_pdf` (server.py lines 28-40): returns the response bytes on a 2xx
response and `None` on any exception. -/
def get_pdf (result : PdfResult) : Option (List Nat) :=
  match result with
  | .failure _ => none
  | .response r => if 200 ≤ r.status ∧ r.status < 300 then some r.content else none

/-- One entry of a parsed feed, carrying its unique id link. -/
structure Entry where
  id : String
deriving DecidableEq

/-- A parsed syndication feed: a possibly-empty list of entries. -/
structure Feed where
  entries : List Entry
deriving DecidableEq

/-- Python's `str.split(sep)` for a non-empty separator, on character lists:
scan left to right; at each non-overlapping occurrence of `sep` close the
current field and continue after the separator.  The fuel argument is an upper
bound on the number of steps; each step consumes at least one character, so
`fuel = length` suffices and the `0` case is never reached. -/
def pySplitAux (sep : List Char) : Nat → List Char → List Char → List (List Char)
  | _, [], acc => [acc.reverse]
  | 0, l, acc => [acc.reverse ++ l]
  | fuel + 1, c :: rest, acc =>
    if sep.isPrefixOf (c :: rest) then
      acc.reverse :: pySplitAux sep fuel (List.drop sep.length (c :: rest)) []
    else
      pySplitAux sep fuel rest (c :: acc)

/-- Python's `s.split(sep)` (non-empty `sep`). -/
def pySplit (s sep : String) : List String :=
  (pySplitAux sep.data s.data.length s.data []).map String.mk

/-- The query parameters dict `{"search_query": f'ti:"{title}"'}`. -/
def searchPayload (title : String) : List (String × String) :=
  [("search_query", "ti:\"" ++ title ++ "\"")]

/-- Result of `get_url_and_arxiv_id`: either the pair
`(direct_pdf_url, arxiv_id)` or an error message string. -/
inductive ResolveResult where
  | ok (direct_pdf_url : String) (arxiv_id : String)
  | err (msg : String)
deriving DecidableEq

/-- Embedding of `get_url_and_arxiv_id` (server.py lines 42-57).  `transport` models the
HTTP GET performed inside `make_api_call`; `parse` models
`feedparser.parse`.  `entry.id.split("/abs/")[-1]` is rendered as the last
element of `pySplit` (the split list is never empty, so `getLastD ""` is
exact). -/
def get_url_and_arxiv_id (transport : String → List (String × String) → HttpResult)
    (parse : String → Feed) (title : String) : ResolveResult :=
  let url := ARXIV_API_BASE ++ "/query"
  let payload := searchPayload title
  match make_api_call (transport url payload) with
  | none => .err "Unable to retrieve data from arXiv.org."
  | some data =>
    let feed := parse data
    match feed.entries with
    | [] => .err ("Unable to extract arXiv ID for the provided title. " ++
        "This issue may stem from an incorrect or incomplete title, " ++
        "or because the work has not been published on arXiv.")
    | entry :: _ =>
      let arxiv_id := (pySplit entry.id "/abs/").getLastD ""
      let direct_pdf_url := "https://arxiv.org/pdf/" ++ arxiv_id
      .ok direct_pdf_url arxiv_id

/-- The whitespace class of Python's `re` module (pattern `\s`) and of
`str.strip()` for `str` arguments: Unicode whitespace. -/
def pythonWhitespace : List Char :=
  [' ', '\t', '\n', '\r', '\x0b', '\x0c',
   '\x1c', '\x1d', '\x1e', '\x1f', '\x85', '\xa0',
   ' ', ' ', ' ', ' ', ' ', ' ', ' ',
   ' ', ' ', ' ', ' ', ' ',
   ' ', ' ', ' ', ' ', '　']

def isPySpace (c : Char) : Bool := pythonWhitespace.contains c

/-- Model of `re.sub(r'\\[ntr]', ' ', text)`: replace each literal backslash followed
by `n`, `t` or `r` with one space, scanning left to right without overlap. -/
def removeEscapes : List Char → List Char
  | [] => []
  | c :: rest =>
    if c = '\\' then
      match rest with
      | [] => ['\\']
      | d :: rest2 =>
        if d = 'n' ∨ d = 't' ∨ d = 'r' then ' ' :: removeEscapes rest2
        else '\\' :: removeEscapes (d :: rest2)
    else c :: removeEscapes rest

/-- Model of `re.sub(r'\s+', ' ', text)`: replace each maximal run of whitespace by a
single space.  The Boolean records whether the previous character was part of
a whitespace run. -/
def collapseAux : Bool → List Char → List Char
  | _, [] => []
  | prevSpace, c :: rest =>
    if isPySpace c then
      if prevSpace then collapseAux true rest
      else ' ' :: collapseAux true rest
    else c :: collapseAux false rest

def collapseSpaces (l : List Char) : List Char := collapseAux false l

/-- Python's `str.strip()`: drop leading and trailing whitespace. -/
def pyStrip (l : List Char) : List Char :=
  ((l.dropWhile isPySpace).reverse.dropWhile isPySpace).reverse

/-- Embedding of `format_text` (server.py lines 59-67). -/
def format_text (text : String) : String :=
  let text_without_escapes := removeEscapes text.data
  let text_single_spaced := collapseSpaces text_without_escapes
  let cleaned_text := pyStrip text_single_spaced
  String.mk cleaned_text

/-- Result of a Python call that may propagate an uncaught exception. -/
inductive PyResult (α : Type) where
  | ok (val : α)
  | raised
deriving DecidableEq

/-- The host filesystem: file contents by path, plus whether opening a path
for writing succeeds. -/
structure FS where
  files : String → Option (List Nat)
  writable : String → Bool

/-- Model of `os.path.join(dir, name)` for POSIX paths, two arguments. -/
def os_path_join (a b : String) : String :=
  if b.data.head? = some '/' then b
  else if a = "" ∨ a.data.getLast? = some '/' then a ++ b
  else a ++ "/" ++ b

/-- Embedding of `get_article_url` (server.py lines 69-86). -/
def get_article_url (transport : String → List (String × String) → HttpResult)
    (parse : String → Feed) (title : String) : String :=
  let formatted_title := format_text title
  match get_url_and_arxiv_id transport parse formatted_title with
  | .err msg => msg
  | .ok article_url _ => article_url

/-- Embedding of `download_article` (server.py lines 88-114).  `DOWNLOAD_PATH` is
`os.getenv("DOWNLOAD_PATH")`, hence an optional string; when it is `None`,
`os.path.join(None, ...)` raises a `TypeError` outside the `try` block, so the
call propagates an uncaught exception (`PyResult.raised`).  The returned pair
carries the filesystem after the call. -/
def download_article (DOWNLOAD_PATH : Option String)
    (transport : String → List (String × String) → HttpResult)
    (parse : String → Feed) (pdfTransport : String → PdfResult)
    (fs : FS) (title : String) : PyResult String × FS :=
  let formatted_title := format_text title
  match get_url_and_arxiv_id transport parse formatted_title with
  | .err msg => (.ok msg, fs)
  | .ok article_url arxiv_id =>
    match get_pdf (pdfTransport article_url) with
    | none => (.ok "Unable to retrieve the article from arXiv.org.", fs)
    | some pdf_doc =>
      match DOWNLOAD_PATH with
      | none => (.raised, fs)
      | some dir =>
        let file_path := os_path_join dir (arxiv_id ++ ".pdf")
        if fs.writable file_path then
          (.ok ("Download successful. Find the PDF at " ++ dir ++ "."),
           { fs with files := fun p => if p = file_path then some pdf_doc else fs.files p })
        else
          (.ok "Unable to save the article to local directory.", fs)

/-- Embedding of `load_article_to_context` (server.py lines 116-140).  `openPdf` models
`fitz.open(stream=..., filetype="pdf")` followed by page iteration, returning
the page texts in order, or `none` when the open raises (uncaught). -/
def load_article_to_context (transport : String → List (String × String) → HttpResult)
    (parse : String → Feed) (pdfTransport : String → PdfResult)
    (openPdf : List Nat → Option (List String)) (title : String) : PyResult String :=
  let formatted_title := format_text title
  match get_url_and_arxiv_id transport parse formatted_title with
  | .err msg => .ok msg
  | .ok article_url _ =>
    match get_pdf (pdfTransport article_url) with
    | none => .ok "Unable to retrieve the article from arXiv.org."
    | some pdf_doc =>
      match openPdf pdf_doc with
      | none => .raised
      | some pages => .ok (pages.foldl (fun content page => content ++ page) "")

/-- Modelled from the spec: “the document's repository ID is the suffix of
that identifier following the last occurrence of the path segment `/abs/`” —
`b` is a suffix of `s` preceded by an occurrence of `"/abs/"`, and no
occurrence of `"/abs/"` lies further right (i.e. every such suffix is at
least as long as `b`).  Used only to compare the spec's wording with the
source's `split("/abs/")[-1]`. -/
def isSuffixAfterLastAbs (s b : String) : Prop :=
  (∃ a : List Char, s.data = a ++ "/abs/".data ++ b.data) ∧
  ∀ (a' b' : List Char), s.data = a' ++ "/abs/".data ++ b' → b.data.length ≤ b'.length

/-! ### Properties of the text normalizer -/

/-- Adjacent characters `a b` do not form the literal escape artifact
`\n`, `\t` or `\r`. -/
def NoArtifact (a b : Char) : Prop := ¬(a = '\\' ∧ (b = 'n' ∨ b = 't' ∨ b = 'r'))

/-- Adjacent characters `a b` are not both whitespace. -/
def NoDoubleSpace (a b : Char) : Prop := ¬(isPySpace a = true ∧ isPySpace b = true)

theorem head?_dropWhile_false {α : Type} {p : α → Bool} (l : List α) (c : α)
    (h : (l.dropWhile p).head? = some c) : p c = false := by
  have hh := List.head?_dropWhile_not p l
  rw [h] at hh
  exact hh

theorem getLast?_dropWhile {α : Type} {p : α → Bool} :
    ∀ l : List α, l.dropWhile p ≠ [] → (l.dropWhile p).getLast? = l.getLast? := by
  intro l
  induction l with
  | nil => intro h; rfl
  | cons a t ih =>
    intro h
    rw [List.dropWhile_cons] at h ⊢
    cases ha : p a
    · simp [ha]
    · simp only [ha, if_true] at h ⊢
      have ht : t ≠ [] := by
        intro e
        rw [e] at h
        simp [List.dropWhile] at h
      rw [ih h]
      cases t with
      | nil => exact absurd rfl ht
      | cons b u => simp

theorem pyStrip_contained (l : List Char) : pyStrip l <:+: l := by
  unfold pyStrip
  have h1 : l.dropWhile isPySpace <:+ l := List.dropWhile_suffix _
  have h2 : (l.dropWhile isPySpace).reverse.dropWhile isPySpace <:+
      (l.dropWhile isPySpace).reverse := List.dropWhile_suffix _
  have h3 : ((l.dropWhile isPySpace).reverse.dropWhile isPySpace).reverse <+:
      l.dropWhile isPySpace := List.reverse_suffix.mp (by simpa using h2)
  exact List.IsInfix.trans ( List.IsPrefix.isInfix h3) ( List.IsSuffix.isInfix h1)

theorem pyStrip_head (l : List Char) (c : Char)
    (h : (pyStrip l).head? = some c) : isPySpace c = false := by
  unfold pyStrip at h
  rw [List.head?_reverse] at h
  have hne : (l.dropWhile isPySpace).reverse.dropWhile isPySpace ≠ [] := by
    intro e
    rw [e] at h
    simp at h
  rw [getLast?_dropWhile _ hne, List.getLast?_reverse] at h
  exact head?_dropWhile_false l c h

theorem pyStrip_getLast (l : List Char) (c : Char)
    (h : (pyStrip l).getLast? = some c) : isPySpace c = false := by
  unfold pyStrip at h
  rw [List.getLast?_reverse] at h
  exact head?_dropWhile_false _ c h

theorem removeEscapes_head? : ∀ l : List Char,
    (removeEscapes l).head? = l.head? ∨ (removeEscapes l).head? = some ' '
  | [] => .inl rfl
  | c :: rest => by
    by_cases hc : c = '\\'
    · subst hc
      cases rest with
      | nil => left; simp [removeEscapes]
      | cons d rest2 =>
        by_cases hd : d = 'n' ∨ d = 't' ∨ d = 'r'
        · right; simp [removeEscapes, hd]
        · left; simp [removeEscapes, hd]
    · left
      rw [removeEscapes.eq_def]
      simp [hc]

theorem chain'_noArtifact_removeEscapes : ∀ l : List Char,
    List.Chain' NoArtifact (removeEscapes l)
  | [] => by simp [removeEscapes]
  | c :: rest => by
    by_cases hc : c = '\\'
    · subst hc
      cases rest with
      | nil => simp [removeEscapes]
      | cons d rest2 =>
        by_cases hd : d = 'n' ∨ d = 't' ∨ d = 'r'
        · have ih := chain'_noArtifact_removeEscapes rest2
          rw [show removeEscapes ('\\' :: d :: rest2) = ' ' :: removeEscapes rest2 by
            simp [removeEscapes, hd]]
          rw [List.chain'_cons']
          refine ⟨fun y _ => ?_, ih⟩
          intro hcon
          exact absurd hcon.1 (by decide)
        · have ih := chain'_noArtifact_removeEscapes (d :: rest2)
          rw [show removeEscapes ('\\' :: d :: rest2) = '\\' :: removeEscapes (d :: rest2) by
            simp [removeEscapes, hd]]
          rw [List.chain'_cons']
          refine ⟨fun y hy => ?_, ih⟩
          rcases removeEscapes_head? (d :: rest2) with hh | hh
          · rw [hh] at hy
            have hyd : d = y := by simpa using hy
            subst hyd
            intro hcon
            exact hd hcon.2
          · rw [hh] at hy
            have hyd : ' ' = y := by simpa using hy
            subst hyd
            intro hcon
            rcases hcon.2 with h | h | h <;> exact absurd h (by decide)
    · have ih := chain'_noArtifact_removeEscapes rest
      rw [show removeEscapes (c :: rest) = c :: removeEscapes rest by
        rw [removeEscapes.eq_def]; simp [hc]]
      rw [List.chain'_cons']
      refine ⟨fun y _ => ?_, ih⟩
      intro hcon
      exact hc hcon.1

theorem collapseAux_true_head : ∀ (l : List Char) (c : Char),
    (collapseAux true l).head? = some c → isPySpace c = false := by
  intro l
  induction l with
  | nil => intro c h; simp [collapseAux] at h
  | cons a rest ih =>
    intro c h
    cases ha : isPySpace a
    · rw [show collapseAux true (a :: rest) = a :: collapseAux false rest by
        simp [collapseAux, ha]] at h
      have : a = c := by simpa using h
      subst this
      exact ha
    · rw [show collapseAux true (a :: rest) = collapseAux true rest by
        simp [collapseAux, ha]] at h
      exact ih c h

theorem collapseAux_false_head? (l : List Char) :
    (collapseAux false l).head? = l.head? ∨ (collapseAux false l).head? = some ' ' := by
  cases l with
  | nil => left; rfl
  | cons c rest =>
    cases hc : isPySpace c
    · left; simp [collapseAux, hc]
    · right; simp [collapseAux, hc]

theorem collapseAux_noDouble : ∀ (l : List Char) (b : Bool),
    List.Chain' NoDoubleSpace (collapseAux b l) := by
  intro l
  induction l with
  | nil => intro b; simp [collapseAux]
  | cons a rest ih =>
    intro b
    cases ha : isPySpace a
    · rw [show collapseAux b (a :: rest) = a :: collapseAux false rest by
        cases b <;> simp [collapseAux, ha]]
      rw [List.chain'_cons']
      refine ⟨fun y _ => ?_, ih false⟩
      intro hcon
      rw [ha] at hcon
      exact absurd hcon.1 (by decide)
    · cases b
      · rw [show collapseAux false (a :: rest) = ' ' :: collapseAux true rest by
          simp [collapseAux, ha]]
        rw [List.chain'_cons']
        refine ⟨fun y hy => ?_, ih true⟩
        have hns := collapseAux_true_head rest y hy
        intro hcon
        rw [hns] at hcon
        exact absurd hcon.2 (by decide)
      · rw [show collapseAux true (a :: rest) = collapseAux true rest by
          simp [collapseAux, ha]]
        exact ih true

theorem collapseAux_noArtifact : ∀ (l : List Char) (b : Bool),
    List.Chain' NoArtifact l → List.Chain' NoArtifact (collapseAux b l) := by
  intro l
  induction l with
  | nil => intro b _; simp [collapseAux]
  | cons a rest ih =>
    intro b h
    rw [List.chain'_cons'] at h
    obtain ⟨hhead, htail⟩ := h
    cases ha : isPySpace a
    · rw [show collapseAux b (a :: rest) = a :: collapseAux false rest by
        cases b <;> simp [collapseAux, ha]]
      rw [List.chain'_cons']
      refine ⟨fun y hy => ?_, ih false htail⟩
      rcases collapseAux_false_head? rest with hh | hh
      · rw [hh] at hy
        exact hhead y hy
      · rw [hh] at hy
        have hyd : ' ' = y := by simpa using hy
        subst hyd
        intro hcon
        rcases hcon.2 with h | h | h <;> exact absurd h (by decide)
    · cases b
      · rw [show collapseAux false (a :: rest) = ' ' :: collapseAux true rest by
          simp [collapseAux, ha]]
        rw [List.chain'_cons']
        refine ⟨fun y _ => ?_, ih true htail⟩
        intro hcon
        exact absurd hcon.1 (by decide)
      · rw [show collapseAux true (a :: rest) = collapseAux true rest by
          simp [collapseAux, ha]]
        exact ih true htail

/-! ### Transport helper lemmas -/

theorem make_api_call_eq_none_iff (r : HttpResult) :
    make_api_call r = none ↔ r.isFailure = true := by
  cases r with
  | failure e => simp [make_api_call, HttpResult.isFailure]
  | response resp =>
    by_cases h : 200 ≤ resp.status ∧ resp.status < 300
    · simp [make_api_call, HttpResult.isFailure, h, h.1, h.2]
    · simp only [make_api_call, HttpResult.isFailure, if_neg h]
      simp only [Bool.not_eq_true', Bool.and_eq_false_iff, decide_eq_false_iff_not, not_le, not_lt, true_iff]
      omega

theorem get_pdf_eq_none_iff (r : PdfResult) :
    get_pdf r = none ↔ r.isFailure = true := by
  cases r with
  | failure e => simp [get_pdf, PdfResult.isFailure]
  | response resp =>
    by_cases h : 200 ≤ resp.status ∧ resp.status < 300
    · simp [get_pdf, PdfResult.isFailure, h, h.1, h.2]
    · simp only [get_pdf, PdfResult.isFailure, if_neg h]
      simp only [Bool.not_eq_true', Bool.and_eq_false_iff, decide_eq_false_iff_not, not_le, not_lt, true_iff]
      omega

/-! ### Claims about the identifier resolver -/

/-- Claim C2: whenever the transport attempt for the search request fails in
any way (raised network error, raised timeout, or a non-2xx status), the
resolver receives no data (`make_api_call` returns `none`, identically for
every failure kind) and returns the single "unable to retrieve data" error
string rather than raising. -/
theorem transport_failure_reported_as_no_data
    (transport : String → List (String × String) → HttpResult)
    (parse : String → Feed) (title : String)
    (h : (transport (ARXIV_API_BASE ++ "/query") (searchPayload title)).isFailure = true) :
    make_api_call (transport (ARXIV_API_BASE ++ "/query") (searchPayload title)) = none ∧
    get_url_and_arxiv_id transport parse title = .err "Unable to retrieve data from arXiv.org." ∧
    ∀ r1 r2 : HttpResult, r1.isFailure = true → r2.isFailure = true →
      make_api_call r1 = make_api_call r2 := by
  have hnone := (make_api_call_eq_none_iff _).mpr h
  refine ⟨hnone, ?_, ?_⟩
  · simp only [get_url_and_arxiv_id]
    rw [hnone]
  · intro r1 r2 h1 h2
    rw [(make_api_call_eq_none_iff r1).mpr h1, (make_api_call_eq_none_iff r2).mpr h2]

theorem transport_failure_reported_as_no_data_witness :
    get_url_and_arxiv_id (fun _ _ => .failure .timeout) (fun _ => ⟨[]⟩)
        "Attention Is All You Need"
      = .err "Unable to retrieve data from arXiv.org." :=
  (transport_failure_reported_as_no_data (fun _ _ => .failure .timeout) (fun _ => ⟨[]⟩)
    "Attention Is All You Need" (by decide)).2.1

/-- Claim C3: whenever the search response is received (2xx) but the parsed
feed has zero entries, the resolver returns the "unable to extract arXiv ID"
error string, and does not raise (its result is a plain return value). -/
theorem empty_feed_reports_extract_error
    (transport : String → List (String × String) → HttpResult)
    (parse : String → Feed) (title : String) (r : HttpResponse)
    (hr : transport (ARXIV_API_BASE ++ "/query") (searchPayload title) = .response r)
    (hs : 200 ≤ r.status ∧ r.status < 300)
    (hf : (parse r.bodyText).entries = []) :
    get_url_and_arxiv_id transport parse title =
      .err ("Unable to extract arXiv ID for the provided title. " ++
        "This issue may stem from an incorrect or incomplete title, " ++
        "or because the work has not been published on arXiv.") := by
  have hmk : make_api_call (transport (ARXIV_API_BASE ++ "/query") (searchPayload title))
      = some r.bodyText := by
    rw [hr]
    simp [make_api_call, hs]
  simp only [get_url_and_arxiv_id]
  rw [hmk]
  simp [hf]

theorem empty_feed_reports_extract_error_witness :
    get_url_and_arxiv_id (fun _ _ => .response ⟨200, "empty feed"⟩) (fun _ => ⟨[]⟩)
        "No Such Title"
      = .err ("Unable to extract arXiv ID for the provided title. " ++
        "This issue may stem from an incorrect or incomplete title, " ++
        "or because the work has not been published on arXiv.") :=
  empty_feed_reports_extract_error (fun _ _ => .response ⟨200, "empty feed"⟩) (fun _ => ⟨[]⟩)
    "No Such Title" ⟨200, "empty feed"⟩ (by decide) (by decide) (by decide)

/-- Claim C1 (amended): whenever the search call returns data and the parsed
feed has at least one entry, the resolver uses only the first entry `e`, takes
as identifier the final field of splitting `e.id` on left-to-right
non-overlapping occurrences of `"/abs/"` (Python's `split("/abs/")[-1]`), and
returns that identifier paired with `https://arxiv.org/pdf/<identifier>`. -/
theorem resolver_returns_first_entry_split_suffix
    (transport : String → List (String × String) → HttpResult)
    (parse : String → Feed) (title : String) (d : String) (e : Entry) (rest : List Entry)
    (hd : make_api_call (transport (ARXIV_API_BASE ++ "/query") (searchPayload title)) = some d)
    (hp : (parse d).entries = e :: rest) :
    get_url_and_arxiv_id transport parse title =
      .ok ("https://arxiv.org/pdf/" ++ (pySplit e.id "/abs/").getLastD "")
        ((pySplit e.id "/abs/").getLastD "") := by
  simp only [get_url_and_arxiv_id]
  rw [hd]
  simp [hp]

theorem resolver_returns_first_entry_split_suffix_witness :
    get_url_and_arxiv_id (fun _ _ => .response ⟨200, "feed body"⟩)
        (fun _ => ⟨[⟨"http://arxiv.org/abs/1706.03762"⟩]⟩) "Attention Is All You Need"
      = .ok "https://arxiv.org/pdf/1706.03762" "1706.03762" := by
  rw [resolver_returns_first_entry_split_suffix (fun _ _ => .response ⟨200, "feed body"⟩)
    (fun _ => ⟨[⟨"http://arxiv.org/abs/1706.03762"⟩]⟩) "Attention Is All You Need"
    "feed body" ⟨"http://arxiv.org/abs/1706.03762"⟩ [] (by decide) (by decide)]
  decide

/-- Claim C1 (counterexample): the resolver's identifier is not, in general,
the suffix of the entry id following the textually last occurrence of
`"/abs/"`.  For the entry id `/abs/abs/1706.03762` — which ends in
`/abs/1706.03762` — the suffix after the last occurrence is `1706.03762`,
but the code returns `abs/1706.03762` (Python's left-to-right non-overlapping
`split` does not see the second, overlapping occurrence). -/
theorem resolver_identifier_not_last_occurrence_suffix :
    get_url_and_arxiv_id (fun _ _ => .response ⟨200, "stub"⟩)
        (fun _ => ⟨[⟨"/abs/abs/1706.03762"⟩]⟩) "Attention Is All You Need"
      = .ok "https://arxiv.org/pdf/abs/1706.03762" "abs/1706.03762" ∧
    List.isSuffixOf "/abs/1706.03762".data "/abs/abs/1706.03762".data = true ∧
    isSuffixAfterLastAbs "/abs/abs/1706.03762" "1706.03762" ∧
    ¬ isSuffixAfterLastAbs "/abs/abs/1706.03762" "abs/1706.03762" := by
  refine ⟨by decide, by decide, ⟨⟨"/abs".data, by decide⟩, ?_⟩, ?_⟩
  · intro a' b' h
    have hS : ("/abs/abs/1706.03762".data).length = 19 := by decide
    have hsep : ("/abs/".data).length = 5 := by decide
    rw [List.append_assoc] at h
    have hdrop : ("/abs/abs/1706.03762".data).drop a'.length = "/abs/".data ++ b' := by
      rw [h, List.drop_left]
    have hpre : "/abs/".data <+: ("/abs/abs/1706.03762".data).drop a'.length := by
      rw [hdrop]
      exact List.prefix_append _ _
    have hlen := congrArg List.length h
    rw [hS] at hlen
    simp only [List.length_append, hsep] at hlen
    have hub := hpre.length_le
    rw [List.length_drop, hS, hsep] at hub
    have hle : a'.length ≤ 4 := by
      by_contra hgt
      push_neg at hgt
      have h5 : 5 ≤ a'.length := hgt
      have h14 : a'.length ≤ 14 := by omega
      set n := a'.length with hn
      interval_cases n <;> exact absurd hpre (by decide)
    simp only [show ("1706.03762".data).length = 10 from by decide]
    omega
  · intro hcon
    exact absurd (hcon.2 "/abs".data "1706.03762".data (by decide)) (by decide)

/-- Claim C7: the resolve-URL tool returns exactly the retrieval URL when
resolution of the normalized title succeeds, and returns the resolution error
string verbatim when it fails. -/
theorem get_article_url_returns_url_or_error_verbatim
    (transport : String → List (String × String) → HttpResult)
    (parse : String → Feed) (title : String) :
    (∀ url arxiv_id,
      get_url_and_arxiv_id transport parse (format_text title) = .ok url arxiv_id →
      get_article_url transport parse title = url) ∧
    (∀ msg,
      get_url_and_arxiv_id transport parse (format_text title) = .err msg →
      get_article_url transport parse title = msg) := by
  constructor
  · intro url arxiv_id h
    simp only [get_article_url]
    rw [h]
  · intro msg h
    simp only [get_article_url]
    rw [h]

theorem get_article_url_returns_url_or_error_verbatim_witness :
    get_article_url (fun _ _ => .response ⟨200, "feed body"⟩)
        (fun _ => ⟨[⟨"http://arxiv.org/abs/1706.03762"⟩]⟩) "Attention Is All You Need"
      = "https://arxiv.org/pdf/1706.03762" ∧
    get_article_url (fun _ _ => .failure .networkError) (fun _ => ⟨[]⟩) "Any Title"
      = "Unable to retrieve data from arXiv.org." :=
  ⟨(get_article_url_returns_url_or_error_verbatim (fun _ _ => .response ⟨200, "feed body"⟩)
      (fun _ => ⟨[⟨"http://arxiv.org/abs/1706.03762"⟩]⟩) "Attention Is All You Need").1
      "https://arxiv.org/pdf/1706.03762" "1706.03762" (by decide),
   (get_article_url_returns_url_or_error_verbatim (fun _ _ => .failure .networkError)
      (fun _ => ⟨[]⟩) "Any Title").2
      "Unable to retrieve data from arXiv.org." (by decide)⟩

/-- Claim C9: the pipeline from title to URL is deterministic given a fixed
upstream: two invocations of the resolve-URL tool whose transports return the
same response for every request and whose feed parsers agree yield the same
result string. -/
theorem get_article_url_deterministic
    (t1 t2 : String → List (String × String) → HttpResult)
    (p1 p2 : String → Feed) (title : String)
    (ht : ∀ u q, t1 u q = t2 u q) (hp : ∀ s, p1 s = p2 s) :
    get_article_url t1 p1 title = get_article_url t2 p2 title := by
  simp only [get_article_url, get_url_and_arxiv_id, ht, hp]

/-- Claim C8: the normalizer never fails (it is a total function); its output
contains no literal `\n`, `\t`, `\r` escape artifact and no two adjacent
whitespace characters, is trimmed of leading and trailing whitespace, and
empty input yields empty output. -/
theorem format_text_output_clean (t : String) :
    List.Chain' NoArtifact (format_text t).data ∧
    List.Chain' NoDoubleSpace (format_text t).data ∧
    (∀ c, (format_text t).data.head? = some c → isPySpace c = false) ∧
    (∀ c, (format_text t).data.getLast? = some c → isPySpace c = false) ∧
    format_text "" = "" := by
  have hdata : (format_text t).data = pyStrip (collapseAux false (removeEscapes t.data)) := rfl
  refine ⟨?_, ?_, ?_, ?_, rfl⟩
  · rw [hdata]
    exact List.Chain'.infix
      (collapseAux_noArtifact _ false (chain'_noArtifact_removeEscapes _))
      (pyStrip_contained _)
  · rw [hdata]
    exact List.Chain'.infix (collapseAux_noDouble _ false) (pyStrip_contained _)
  · rw [hdata]
    exact pyStrip_head _
  · rw [hdata]
    exact pyStrip_getLast _

/-- Claim C4: when resolution succeeds, the PDF fetch succeeds, and the
configured download directory is writable, the download tool returns the
success message naming the configured directory and the filesystem afterwards
holds `<identifier>.pdf` in that directory with content byte-identical to the
fetched body. -/
theorem download_success_writes_pdf_and_names_directory
    (dir : String) (transport : String → List (String × String) → HttpResult)
    (parse : String → Feed) (pdfTransport : String → PdfResult) (fs : FS)
    (title url arxiv_id : String) (content : List Nat)
    (hres : get_url_and_arxiv_id transport parse (format_text title) = .ok url arxiv_id)
    (hfetch : get_pdf (pdfTransport url) = some content)
    (hw : fs.writable (os_path_join dir (arxiv_id ++ ".pdf")) = true) :
    (download_article (some dir) transport parse pdfTransport fs title).1
      = .ok ("Download successful. Find the PDF at " ++ dir ++ ".") ∧
    (download_article (some dir) transport parse pdfTransport fs title).2.files
      (os_path_join dir (arxiv_id ++ ".pdf")) = some content := by
  simp only [download_article, hres, hfetch]
  simp [hw]

theorem download_success_writes_pdf_and_names_directory_witness :
    (download_article (some "/downloads") (fun _ _ => .response ⟨200, "feed body"⟩)
        (fun _ => ⟨[⟨"http://arxiv.org/abs/1706.03762"⟩]⟩)
        (fun _ => .response ⟨200, [37, 80, 68, 70]⟩)
        ⟨fun _ => none, fun _ => true⟩ "Attention Is All You Need").1
      = .ok ("Download successful. Find the PDF at " ++ "/downloads" ++ ".") ∧
    (download_article (some "/downloads") (fun _ _ => .response ⟨200, "feed body"⟩)
        (fun _ => ⟨[⟨"http://arxiv.org/abs/1706.03762"⟩]⟩)
        (fun _ => .response ⟨200, [37, 80, 68, 70]⟩)
        ⟨fun _ => none, fun _ => true⟩ "Attention Is All You Need").2.files
      (os_path_join "/downloads" ("1706.03762" ++ ".pdf")) = some [37, 80, 68, 70] :=
  download_success_writes_pdf_and_names_directory "/downloads"
    (fun _ _ => .response ⟨200, "feed body"⟩)
    (fun _ => ⟨[⟨"http://arxiv.org/abs/1706.03762"⟩]⟩)
    (fun _ => .response ⟨200, [37, 80, 68, 70]⟩)
    ⟨fun _ => none, fun _ => true⟩ "Attention Is All You Need"
    "https://arxiv.org/pdf/1706.03762" "1706.03762" [37, 80, 68, 70]
    (by decide) (by decide) (by decide)

/-- Claim C5: when resolution succeeds but the PDF fetch fails in any way
(raised transport error, timeout, or non-2xx status), the download tool
returns the fixed "unable to retrieve the article" string and the filesystem
is unchanged. -/
theorem download_fetch_failure_message_and_fs_unchanged
    (DOWNLOAD_PATH : Option String)
    (transport : String → List (String × String) → HttpResult)
    (parse : String → Feed) (pdfTransport : String → PdfResult) (fs : FS)
    (title url arxiv_id : String)
    (hres : get_url_and_arxiv_id transport parse (format_text title) = .ok url arxiv_id)
    (hfail : (pdfTransport url).isFailure = true) :
    download_article DOWNLOAD_PATH transport parse pdfTransport fs title
      = (.ok "Unable to retrieve the article from arXiv.org.", fs) := by
  have hnone := (get_pdf_eq_none_iff _).mpr hfail
  simp only [download_article, hres, hnone]

theorem download_fetch_failure_message_and_fs_unchanged_witness :
    download_article (some "/downloads") (fun _ _ => .response ⟨200, "feed body"⟩)
        (fun _ => ⟨[⟨"http://arxiv.org/abs/1706.03762"⟩]⟩)
        (fun _ => .failure .timeout)
        ⟨fun _ => none, fun _ => true⟩ "Attention Is All You Need"
      = (.ok "Unable to retrieve the article from arXiv.org.",
         ⟨fun _ => none, fun _ => true⟩) :=
  download_fetch_failure_message_and_fs_unchanged (some "/downloads")
    (fun _ _ => .response ⟨200, "feed body"⟩)
    (fun _ => ⟨[⟨"http://arxiv.org/abs/1706.03762"⟩]⟩)
    (fun _ => .failure .timeout)
    ⟨fun _ => none, fun _ => true⟩ "Attention Is All You Need"
    "https://arxiv.org/pdf/1706.03762" "1706.03762" (by decide) (by decide)

/-- Claim C10: when the download-directory setting is unset (read as `None`
at process start) and resolution and fetch both succeed, the download tool
propagates an uncaught exception from the path-join step — which sits outside
the `try` block guarding the write — instead of returning a string; no file
is written. -/
theorem download_raises_when_download_path_unset
    (transport : String → List (String × String) → HttpResult)
    (parse : String → Feed) (pdfTransport : String → PdfResult) (fs : FS)
    (title url arxiv_id : String) (content : List Nat)
    (hres : get_url_and_arxiv_id transport parse (format_text title) = .ok url arxiv_id)
    (hfetch : get_pdf (pdfTransport url) = some content) :
    download_article none transport parse pdfTransport fs title = (.raised, fs) := by
  simp only [download_article, hres, hfetch]

theorem download_raises_when_download_path_unset_witness :
    download_article none (fun _ _ => .response ⟨200, "feed body"⟩)
        (fun _ => ⟨[⟨"http://arxiv.org/abs/1706.03762"⟩]⟩)
        (fun _ => .response ⟨200, [37, 80, 68, 70]⟩)
        ⟨fun _ => none, fun _ => true⟩ "Attention Is All You Need"
      = (.raised, ⟨fun _ => none, fun _ => true⟩) :=
  download_raises_when_download_path_unset
    (fun _ _ => .response ⟨200, "feed body"⟩)
    (fun _ => ⟨[⟨"http://arxiv.org/abs/1706.03762"⟩]⟩)
    (fun _ => .response ⟨200, [37, 80, 68, 70]⟩)
    ⟨fun _ => none, fun _ => true⟩ "Attention Is All You Need"
    "https://arxiv.org/pdf/1706.03762" "1706.03762" [37, 80, 68, 70]
    (by decide) (by decide)

/-- Claim C6: when resolution and fetch succeed and the fetched bytes open as
a paginated document, the load-into-context tool returns the concatenation of
the pages' extracted text in page order, with no separators inserted. -/
theorem load_context_concatenates_pages_in_order
    (transport : String → List (String × String) → HttpResult)
    (parse : String → Feed) (pdfTransport : String → PdfResult)
    (openPdf : List Nat → Option (List String))
    (title url arxiv_id : String) (content : List Nat) (pages : List String)
    (hres : get_url_and_arxiv_id transport parse (format_text title) = .ok url arxiv_id)
    (hfetch : get_pdf (pdfTransport url) = some content)
    (hopen : openPdf content = some pages) :
    load_article_to_context transport parse pdfTransport openPdf title
      = .ok (String.join pages) := by
  simp only [load_article_to_context, hres, hfetch, hopen]
  rfl

theorem load_context_concatenates_pages_in_order_witness :
    load_article_to_context (fun _ _ => .response ⟨200, "feed body"⟩)
        (fun _ => ⟨[⟨"http://arxiv.org/abs/1706.03762"⟩]⟩)
        (fun _ => .response ⟨200, [37, 80, 68, 70]⟩)
        (fun _ => some ["Page one. ", "Page two. ", "Page three."])
        "Attention Is All You Need"
      = .ok "Page one. Page two. Page three." := by
  rw [load_context_concatenates_pages_in_order
    (fun _ _ => .response ⟨200, "feed body"⟩)
    (fun _ => ⟨[⟨"http://arxiv.org/abs/1706.03762"⟩]⟩)
    (fun _ => .response ⟨200, [37, 80, 68, 70]⟩)
    (fun _ => some ["Page one. ", "Page two. ", "Page three."])
    "Attention Is All You Need"
    "https://arxiv.org/pdf/1706.03762" "1706.03762" [37, 80, 68, 70]
    ["Page one. ", "Page two. ", "Page three."]
    (by decide) (by decide) (by decide)]
  rfl

theorem get_article_url_deterministic_witness :
    get_article_url (fun _ _ => .response ⟨200, "feed body"⟩)
        (fun _ => ⟨[⟨"http://arxiv.org/abs/1706.03762"⟩]⟩) "Attention Is All You Need"
      = get_article_url (fun _ _ => .response ⟨200, "feed body"⟩)
        (fun _ => ⟨[⟨"http://arxiv.org/abs/1706.03762"⟩]⟩) "Attention Is All You Need" :=
  get_article_url_deterministic _ _ _ _ "Attention Is All You Need"
    (fun _ _ => rfl) (fun _ => rfl)

end ArxivServer
